import Mathlib

/-!
Shallow embedding of the `Configurator` class of `src/js/main.js`
(Felck/babylon-configurator).

The JavaScript class owns three append-only arrays:

  #meshes    : [{ mesh, materialData }]
  #materials : [{ material, textureIndex }]
  #textures  : [{ name, diffuseTexture, bumpTexture }]   (sentinel "None" at 0)

JavaScript object references are modelled as indices:

  * renderable (BABYLON) mesh handles index a heap `rmeshes`; each renderable
    mesh carries a mutable `material` property (nullable reference to a
    renderable material);
  * renderable material handles index a heap `rmats`; each renderable material
    carries mutable `diffuseTexture` / `bumpTexture` properties (nullable
    opaque texture handles, modelled as `Option Nat`);
  * a mesh entry's `materialData` field is a reference to a material-entry
    object stored in `#materials`.  Since `#materials` is only ever pushed to
    and its slots are never replaced, a reference to a material entry is
    exactly an index into `#materials` (or `none`: in JS,
    `this.#materials[i]` is `undefined` when `i` is absent or out of range).
    JS `===` on such references coincides with equality of these
    `Option Nat` values (`undefined === undefined` is `true`).

A JS runtime `TypeError` (property access on `undefined`/`null`, which is how
every out-of-range index manifests in this code) is modelled as `none`; the
post-exception state is not modelled, no claim inspects it.
-/

/-- A renderable (engine-side) material object: its mutable
`diffuseTexture` / `bumpTexture` properties, written by `setTexture`. -/
structure RMat where
  diffuseTexture : Option Nat
  bumpTexture : Option Nat
  deriving DecidableEq, Repr

/-- A renderable (engine-side) mesh object: its mutable `material` property
(a nullable reference into the `rmats` heap), written by `setMaterial`. -/
structure RMesh where
  material : Option Nat
  deriving DecidableEq, Repr

/-- A `#textures` entry of the configurator (`addTexture`, main.js:18-24). -/
structure TextureData where
  name : String
  diffuseTexture : Option Nat
  bumpTexture : Option Nat
  deriving DecidableEq, Repr

/-- A `#materials` entry of the configurator (`addMaterial`, main.js:14-16):
the renderable material handle and the remembered texture index. -/
structure MaterialData where
  material : Nat
  textureIndex : Nat
  deriving DecidableEq, Repr

/-- A `#meshes` entry of the configurator (`addMesh`, main.js:10-12): the
renderable mesh handle and the reference to the current material entry
(`none` models the JS value `undefined`). -/
structure MeshData where
  mesh : Nat
  materialData : Option Nat
  deriving DecidableEq, Repr

/-- The state: the `Configurator` instance's three private arrays
(main.js:2-8) together with the engine heaps its handles point into. -/
structure Configurator where
  rmeshes : List RMesh
  rmats : List RMat
  meshes : List MeshData
  materials : List MaterialData
  textures : List TextureData
  deriving DecidableEq, Repr

/-- The sentinel texture entry the `#textures` field is initialised with
(main.js:4-8). -/
def sentinelTexture : TextureData :=
  { name := "None", diffuseTexture := none, bumpTexture := none }

/-- A freshly constructed `Configurator` (main.js:2-8, 52): empty `#meshes`
and `#materials`, `#textures` holding the sentinel.  The engine heaps are
parameters: renderable objects are created by the excluded scene code. -/
def initState (rmeshes : List RMesh) (rmats : List RMat) : Configurator :=
  { rmeshes := rmeshes, rmats := rmats, meshes := [], materials := [],
    textures := [sentinelTexture] }

namespace Configurator

/-- Method `addMesh(mesh, materialIndex)` (main.js:10-12): pushes
`{ mesh, materialData: this.#materials[materialIndex] }`.  In JS the array
read returns `undefined` (never throws) when `materialIndex` is `undefined`
or out of range, so `addMesh` is total and always appends. -/
def addMesh (s : Configurator) (mesh : Nat) (materialIndex : Option Nat) :
    Configurator :=
  { s with meshes := s.meshes ++
      [{ mesh := mesh,
         materialData := materialIndex.bind fun i =>
           if i < s.materials.length then some i else none }] }

/-- Method `addMaterial(material, textureIndex = 0)` (main.js:14-16) with the
second argument explicit. -/
def addMaterialFull (s : Configurator) (material : Nat) (textureIndex : Nat) :
    Configurator :=
  { s with materials := s.materials ++
      [{ material := material, textureIndex := textureIndex }] }

/-- Method `addMaterial(material)` as invoked by every caller and described by the
spec: the `textureIndex` parameter takes its default value `0`. -/
def addMaterial (s : Configurator) (material : Nat) : Configurator :=
  addMaterialFull s material 0

/-- Method `addTexture(name, diffuseTexture = null, bumpTexture = null)`
(main.js:18-24). -/
def addTexture (s : Configurator) (name : String)
    (diffuseTexture bumpTexture : Option Nat) : Configurator :=
  { s with textures := s.textures ++
      [{ name := name, diffuseTexture := diffuseTexture,
         bumpTexture := bumpTexture }] }

/-- Method `setMaterial(meshIndex, materialIndex)` (main.js:26-33).  Both array
reads yield `undefined` when out of range; line 29
(`meshData.mesh.material = materialData.material`) then throws, modelled as
`none`.  On success it writes the mesh handle's `material` property, replaces
the mesh entry's `materialData` reference, and returns
`materialData.textureIndex`.  The guard on the mesh handle models that the
handle refers to an actual engine object. -/
def setMaterial (s : Configurator) (meshIndex materialIndex : Nat) :
    Option (Configurator × Nat) :=
  match s.materials[materialIndex]?, s.meshes[meshIndex]? with
  | some materialData, some meshData =>
    if meshData.mesh < s.rmeshes.length then
      some ({ s with
               rmeshes := s.rmeshes.set meshData.mesh
                 { material := some materialData.material },
               meshes := s.meshes.set meshIndex
                 { meshData with materialData := some materialIndex } },
            materialData.textureIndex)
    else none
  | _, _ => none

/-- Method `setTexture(meshIndex, textureIndex)` (main.js:35-41).  Out-of-range
reads yield `undefined`; line 38 then throws on
`meshData.mesh.material.diffuseTexture` (also when the renderable mesh has no
material attached), and line 40 throws on `meshData.materialData.textureIndex`
when the mesh entry has no material reference — all modelled as `none`.  On
success it writes the texture entry's two handles onto the renderable material
attached to the mesh and stores `textureIndex` on the referenced material
entry. -/
def setTexture (s : Configurator) (meshIndex textureIndex : Nat) :
    Option Configurator :=
  match s.textures[textureIndex]?, s.meshes[meshIndex]? with
  | some textureData, some meshData =>
    match s.rmeshes[meshData.mesh]? with
    | some rmesh =>
      match rmesh.material with
      | some rmatRef =>
        if rmatRef < s.rmats.length then
          match meshData.materialData with
          | some mdIndex =>
            match s.materials[mdIndex]? with
            | some materialData =>
              some { s with
                      rmats := s.rmats.set rmatRef
                        { diffuseTexture := textureData.diffuseTexture,
                          bumpTexture := textureData.bumpTexture },
                      materials := s.materials.set mdIndex
                        { materialData with textureIndex := textureIndex } }
            | none => none
          | none => none
        else none
      | none => none
    | none => none
  | _, _ => none

/-- Method `haveSameMaterial(mesh1, mesh2)` (main.js:43-45): `===` on the two mesh
entries' `materialData` references.  Out-of-range mesh indices make line 44
throw (`undefined.materialData`), modelled as `none`. -/
def haveSameMaterial (s : Configurator) (mesh1 mesh2 : Nat) : Option Bool :=
  match s.meshes[mesh1]?, s.meshes[mesh2]? with
  | some m1, some m2 => some (decide (m1.materialData = m2.materialData))
  | _, _ => none

end Configurator

/-- One call into the `Configurator` API (the mutating operations of
main.js:10-45; the two getters are state projections and need no `Op`). -/
inductive Op where
  | addMesh (mesh : Nat) (materialIndex : Option Nat)
  | addMaterial (material : Nat)
  | addTexture (name : String) (diffuseTexture bumpTexture : Option Nat)
  | setMaterial (meshIndex materialIndex : Nat)
  | setTexture (meshIndex textureIndex : Nat)
  deriving DecidableEq, Repr

/-- Execute one call; `none` when the call throws. -/
def run1 (s : Configurator) : Op → Option Configurator
  | .addMesh mesh mi => some (s.addMesh mesh mi)
  | .addMaterial material => some (s.addMaterial material)
  | .addTexture name d b => some (s.addTexture name d b)
  | .setMaterial m i => (s.setMaterial m i).map Prod.fst
  | .setTexture m t => s.setTexture m t

/-- Execute a sequence of calls; `none` as soon as one throws. -/
def run : Configurator → List Op → Option Configurator
  | s, [] => some s
  | s, op :: ops => (run1 s op).bind fun s1 => run s1 ops

/-- States reachable from a freshly constructed `Configurator` (over any
engine heaps) by successful API calls. -/
inductive Reachable : Configurator → Prop where
  | init (rmeshes : List RMesh) (rmats : List RMat) :
      Reachable (initState rmeshes rmats)
  | step (s s' : Configurator) (op : Op) :
      Reachable s → run1 s op = some s' → Reachable s'

/-- Ghost semantics for the trace-level reading of `haveSameMaterial`: for
each registered mesh, the material index used by the last assigning call
(`setMaterial`, or `addMesh` with an in-bounds material index), and the
current number of registered materials. -/
def ghost1 (g : List (Option Nat) × Nat) : Op → List (Option Nat) × Nat
  | .addMesh _ mi =>
    (g.1 ++ [mi.bind fun i => if i < g.2 then some i else none], g.2)
  | .addMaterial _ => (g.1, g.2 + 1)
  | .addTexture _ _ _ => g
  | .setMaterial m i => (g.1.set m (some i), g.2)
  | .setTexture _ _ => g

/-- Ghost semantics over a trace. -/
def ghostRun (g : List (Option Nat) × Nat) : List Op → List (Option Nat) × Nat
  | [] => g
  | op :: ops => ghostRun (ghost1 g op) ops

namespace Configurator

/-- Inversion of a successful `setMaterial`: what the call looked up and
what the new state is. -/
theorem setMaterial_eq_some {s s' : Configurator} {m i r : Nat}
    (h : setMaterial s m i = some (s', r)) :
    ∃ materialData meshData,
      s.materials[i]? = some materialData ∧
      s.meshes[m]? = some meshData ∧
      meshData.mesh < s.rmeshes.length ∧
      r = materialData.textureIndex ∧
      s' = { s with
              rmeshes := s.rmeshes.set meshData.mesh
                { material := some materialData.material },
              meshes := s.meshes.set m
                { meshData with materialData := some i } } := by
  unfold setMaterial at h
  split at h
  next materialData meshData hM hm =>
    split at h
    next hlt =>
      simp only [Option.some.injEq, Prod.mk.injEq] at h
      exact ⟨materialData, meshData, hM, hm, hlt, h.2.symm, h.1.symm⟩
    next hlt => exact absurd h (by simp)
  next => exact absurd h (by simp)

/-- Inversion of a successful `setTexture`. -/
theorem setTexture_eq_some {s s' : Configurator} {m t : Nat}
    (h : setTexture s m t = some s') :
    ∃ textureData meshData rmesh rmatRef mdIndex materialData,
      s.textures[t]? = some textureData ∧
      s.meshes[m]? = some meshData ∧
      s.rmeshes[meshData.mesh]? = some rmesh ∧
      rmesh.material = some rmatRef ∧
      rmatRef < s.rmats.length ∧
      meshData.materialData = some mdIndex ∧
      s.materials[mdIndex]? = some materialData ∧
      s' = { s with
              rmats := s.rmats.set rmatRef
                { diffuseTexture := textureData.diffuseTexture,
                  bumpTexture := textureData.bumpTexture },
              materials := s.materials.set mdIndex
                { materialData with textureIndex := t } } := by
  unfold setTexture at h
  split at h
  next textureData meshData hT hm =>
    split at h
    next rmesh hR =>
      split at h
      next rmatRef hRm =>
        split at h
        next hlt =>
          split at h
          next mdIndex hmd =>
            split at h
            next materialData hMd =>
              exact ⟨textureData, meshData, rmesh, rmatRef, mdIndex,
                materialData, hT, hm, hR, hRm, hlt, hmd, hMd,
                (Option.some.inj h).symm⟩
            next => exact absurd h (by simp)
          next => exact absurd h (by simp)
        next => exact absurd h (by simp)
      next => exact absurd h (by simp)
    next => exact absurd h (by simp)
  next => exact absurd h (by simp)

/-- An index bearing a value is inside the list. -/
theorem lt_of_getElem?_some {α : Type} {l : List α} {n : Nat} {a : α}
    (h : l[n]? = some a) : n < l.length := by
  obtain ⟨h1, -⟩ := List.getElem?_eq_some_iff.mp h
  exact h1

/-- Lookups of the two entries appended last. -/
theorem getElem?_append_two {α : Type} (l : List α) (x y : α) :
    (l ++ [x] ++ [y])[l.length]? = some x ∧
    (l ++ [x] ++ [y])[l.length + 1]? = some y := by
  constructor
  · rw [List.getElem?_append_left (by simp), List.getElem?_concat_length]
  · rw [show l.length + 1 = (l ++ [x]).length by simp,
      List.getElem?_concat_length]

/-- Introduction form of a successful `setMaterial`. -/
theorem setMaterial_eq_some_of (s : Configurator) {m i : Nat}
    {meshData : MeshData} {materialData : MaterialData}
    (hm : s.meshes[m]? = some meshData)
    (hi : s.materials[i]? = some materialData)
    (hmesh : meshData.mesh < s.rmeshes.length) :
    setMaterial s m i =
      some ({ s with
               rmeshes := s.rmeshes.set meshData.mesh
                 { material := some materialData.material },
               meshes := s.meshes.set m
                 { meshData with materialData := some i } },
            materialData.textureIndex) := by
  unfold setMaterial
  rw [hi, hm]
  exact if_pos hmesh

/-- Introduction form of a successful `setTexture`. -/
theorem setTexture_eq_some_of {s : Configurator} {m t : Nat}
    {textureData : TextureData} {meshData : MeshData} {rmesh : RMesh}
    {rmatRef mdIndex : Nat} {materialData : MaterialData}
    (hT : s.textures[t]? = some textureData)
    (hm : s.meshes[m]? = some meshData)
    (hR : s.rmeshes[meshData.mesh]? = some rmesh)
    (hRm : rmesh.material = some rmatRef)
    (hrr : rmatRef < s.rmats.length)
    (hmd : meshData.materialData = some mdIndex)
    (hMd : s.materials[mdIndex]? = some materialData) :
    setTexture s m t =
      some { s with
              rmats := s.rmats.set rmatRef
                { diffuseTexture := textureData.diffuseTexture,
                  bumpTexture := textureData.bumpTexture },
              materials := s.materials.set mdIndex
                { materialData with textureIndex := t } } := by
  unfold setTexture
  simp only [hT, hm, hR, hRm, hmd, hMd, if_pos hrr]

end Configurator

open Configurator

/-- A concrete scene, assembled the way `createScene`/`ImportMesh` do: two
renderable meshes (handles 0, 1) with no attached material yet, two
renderable materials (handles 0, 1), two registered materials, one
registered texture besides the sentinel, and two registered meshes. -/
def exState : Configurator :=
  initState [{ material := none }, { material := none }]
      [{ diffuseTexture := none, bumpTexture := none },
       { diffuseTexture := none, bumpTexture := none }]
    |>.addMaterial 0 |>.addMaterial 1
    |>.addTexture ("Stones") (some 10) (some 11)
    |>.addMesh 0 (some 0) |>.addMesh 1 (some 1)

/-- State `exState` after `setMaterial(0, 0)`. -/
def exState1 : Configurator :=
  ((exState.setMaterial 0 0).map Prod.fst).getD exState

/-- State `exState1` after `setTexture(0, 1)`. -/
def exState2 : Configurator :=
  (exState1.setTexture 0 1).getD exState1

/-- Claim C3: for a registered mesh `m` and in-bounds material index `i`,
`setMaterial(m, i)` points the mesh entry's material reference at material
entry `i`, writes that entry's renderable material handle onto the mesh's
renderable mesh handle, and returns the texture index currently stored on
that material entry; the registries of materials and textures are untouched. -/
theorem setMaterial_spec (s : Configurator) (m i : Nat)
    (meshData : MeshData) (materialData : MaterialData)
    (hm : s.meshes[m]? = some meshData)
    (hi : s.materials[i]? = some materialData)
    (hmesh : meshData.mesh < s.rmeshes.length) :
    ∃ s', Configurator.setMaterial s m i =
        some (s', materialData.textureIndex) ∧
      s'.meshes[m]? = some { meshData with materialData := some i } ∧
      s'.rmeshes[meshData.mesh]? =
        some { material := some materialData.material } ∧
      s'.materials = s.materials ∧ s'.textures = s.textures := by
  refine ⟨_, setMaterial_eq_some_of s hm hi hmesh, ?_, ?_, rfl, rfl⟩
  · exact List.getElem?_set_self (lt_of_getElem?_some hm)
  · exact List.getElem?_set_self hmesh

/-- Witness for claim C3 at `exState`, mesh 0, material 1. -/
theorem setMaterial_spec_witness :
    ∃ s', Configurator.setMaterial exState 0 1 = some (s', 0) ∧
      s'.meshes[0]? = some { mesh := 0, materialData := some 1 } ∧
      s'.rmeshes[0]? = some { material := some 1 } ∧
      s'.materials = exState.materials ∧ s'.textures = exState.textures :=
  setMaterial_spec exState 0 1 { mesh := 0, materialData := some 0 }
    { material := 1, textureIndex := 0 } rfl rfl (by decide)

/-- Counterexample to claim C5 as stated: `addMesh` (main.js:10-12) only
pushes the new entry onto `#meshes`; it never assigns
`mesh.material`.  Here material entry 0 holds renderable handle 7, the sole
renderable mesh has no attached material, and after `addMesh(0, 0)` it still
has none — the claimed application of handle 7 did not happen. -/
theorem addMesh_applies_material_counterexample :
    (((initState [{ material := none }] []).addMaterial 7).addMesh 0
        (some 0)).meshes = [{ mesh := 0, materialData := some 0 }] ∧
    (((initState [{ material := none }] []).addMaterial 7).addMesh 0
        (some 0)).rmeshes = [{ material := none }] ∧
    ¬ (((initState [{ material := none }] []).addMaterial 7).addMesh 0
        (some 0)).rmeshes[0]? = some { material := some 7 } := by
  refine ⟨rfl, rfl, ?_⟩
  decide

/-- Claim C5 as amended: `addMesh` with an in-bounds material index sets the
new mesh entry's material reference to the material entry at that index but
leaves every renderable mesh untouched (no material handle is applied); with
no material index the new entry has no material. -/
theorem addMesh_spec (s : Configurator) (mesh i : Nat)
    (hi : i < s.materials.length) :
    (s.addMesh mesh (some i)).meshes =
      s.meshes ++ [{ mesh := mesh, materialData := some i }] ∧
    (s.addMesh mesh (some i)).rmeshes = s.rmeshes ∧
    (s.addMesh mesh none).meshes =
      s.meshes ++ [{ mesh := mesh, materialData := none }] ∧
    (s.addMesh mesh none).rmeshes = s.rmeshes := by
  refine ⟨?_, rfl, rfl, rfl⟩
  unfold Configurator.addMesh
  simp [hi]

/-- Witness for the amended claim C5 at `exState`. -/
theorem addMesh_spec_witness :
    (exState.addMesh 9 (some 0)).meshes =
      exState.meshes ++ [{ mesh := 9, materialData := some 0 }] ∧
    (exState.addMesh 9 (some 0)).rmeshes = exState.rmeshes ∧
    (exState.addMesh 9 none).meshes =
      exState.meshes ++ [{ mesh := 9, materialData := none }] ∧
    (exState.addMesh 9 none).rmeshes = exState.rmeshes :=
  addMesh_spec exState 9 0 (by decide)

/-- Counterexample to claim C6 as stated: on a fresh configurator with no
materials, `addMesh(0, 3)` raises no error — `#materials[3]` is `undefined`
in JS — and still appends a mesh entry (with no material reference), where
the claim demands an out-of-range error instead of an append. -/
theorem addMesh_out_of_range_counterexample :
    run1 (initState [] []) (Op.addMesh 0 (some 3)) =
      some ((initState [] []).addMesh 0 (some 3)) ∧
    ((initState [] []).addMesh 0 (some 3)).meshes =
      [{ mesh := 0, materialData := none }] :=
  ⟨rfl, rfl⟩

/-- Claim C6 as amended: `setMaterial`, `setTexture` and `haveSameMaterial`
fail fast on an out-of-range index, but `addMesh` with an out-of-range
material index does not fail: it silently appends a mesh entry with no
material reference. -/
theorem out_of_range_fail_fast :
    (∀ (s : Configurator) (m i : Nat),
      s.meshes.length ≤ m ∨ s.materials.length ≤ i →
      Configurator.setMaterial s m i = none) ∧
    (∀ (s : Configurator) (m t : Nat),
      s.meshes.length ≤ m ∨ s.textures.length ≤ t →
      Configurator.setTexture s m t = none) ∧
    (∀ (s : Configurator) (a b : Nat),
      s.meshes.length ≤ a ∨ s.meshes.length ≤ b →
      Configurator.haveSameMaterial s a b = none) ∧
    (∀ (s : Configurator) (mesh i : Nat), s.materials.length ≤ i →
      (s.addMesh mesh (some i)).meshes =
        s.meshes ++ [{ mesh := mesh, materialData := none }]) := by
  refine ⟨?_, ?_, ?_, ?_⟩
  · intro s m i h
    unfold Configurator.setMaterial
    split
    next materialData meshData hM hm =>
      rcases h with h | h
      · exact absurd (lt_of_getElem?_some hm) (not_lt.mpr h)
      · exact absurd (lt_of_getElem?_some hM) (not_lt.mpr h)
    next => rfl
  · intro s m t h
    unfold Configurator.setTexture
    split
    next textureData meshData hT hm =>
      rcases h with h | h
      · exact absurd (lt_of_getElem?_some hm) (not_lt.mpr h)
      · exact absurd (lt_of_getElem?_some hT) (not_lt.mpr h)
    next => rfl
  · intro s a b h
    unfold Configurator.haveSameMaterial
    split
    next m1 m2 h1 h2 =>
      rcases h with h | h
      · exact absurd (lt_of_getElem?_some h1) (not_lt.mpr h)
      · exact absurd (lt_of_getElem?_some h2) (not_lt.mpr h)
    next => rfl
  · intro s mesh i h
    unfold Configurator.addMesh
    simp [if_neg (not_lt.mpr h)]

/-- Witness for the amended claim C6 on a fresh configurator. -/
theorem out_of_range_fail_fast_witness :
    Configurator.setMaterial (initState [] []) 0 0 = none ∧
    Configurator.setTexture (initState [] []) 0 0 = none ∧
    Configurator.haveSameMaterial (initState [] []) 0 1 = none ∧
    ((initState [] []).addMesh 0 (some 3)).meshes =
      [] ++ [{ mesh := 0, materialData := none }] :=
  ⟨out_of_range_fail_fast.1 (initState [] []) 0 0 (Or.inl (by decide)),
   out_of_range_fail_fast.2.1 (initState [] []) 0 0 (Or.inl (by decide)),
   out_of_range_fail_fast.2.2.1 (initState [] []) 0 1 (Or.inl (by decide)),
   out_of_range_fail_fast.2.2.2 (initState [] []) 0 3 (by decide)⟩

/-- Claim C8: whatever the current state, `addMaterial` appends a material
entry whose stored texture index is 0 (the sentinel) at the moment of
creation. -/
theorem addMaterial_textureIndex_zero (s : Configurator) (material : Nat) :
    (s.addMaterial material).materials.getLast? =
      some { material := material, textureIndex := 0 } ∧
    (s.addMaterial material).materials[s.materials.length]? =
      some { material := material, textureIndex := 0 } := by
  constructor
  · exact List.getLast?_concat _
  · exact List.getElem?_concat_length _ _

/-- Claim C9: two meshes registered by `addMesh` without a material index
both get the reference value `undefined`, and `undefined === undefined`, so
`haveSameMaterial` on their indices returns `true` although neither was ever
assigned a material. -/
theorem haveSameMaterial_of_unassigned (s : Configurator) (mesh1 mesh2 : Nat) :
    Configurator.haveSameMaterial ((s.addMesh mesh1 none).addMesh mesh2 none)
      s.meshes.length (s.meshes.length + 1) = some true := by
  have h1 := (getElem?_append_two s.meshes
    ({ mesh := mesh1, materialData := none } : MeshData)
    { mesh := mesh2, materialData := none }).1
  have h2 := (getElem?_append_two s.meshes
    ({ mesh := mesh1, materialData := none } : MeshData)
    { mesh := mesh2, materialData := none }).2
  unfold Configurator.haveSameMaterial
  rw [show ((s.addMesh mesh1 none).addMesh mesh2 none).meshes
      = s.meshes ++ [{ mesh := mesh1, materialData := none }]
        ++ [{ mesh := mesh2, materialData := none }] from rfl, h1, h2]
  rfl

/-- Claim C10: `setMaterial` leaves the whole materials registry — in
particular every stored texture index — unchanged, and none of `addMesh`,
`addMaterial`, `addTexture` writes an existing material entry; `setTexture`
is therefore the only operation that writes a material entry's texture index
after the entry is created. -/
theorem materials_frame :
    (∀ (s s' : Configurator) (m i r : Nat),
      Configurator.setMaterial s m i = some (s', r) →
      s'.materials = s.materials) ∧
    (∀ (s : Configurator) (mesh : Nat) (mi : Option Nat),
      (s.addMesh mesh mi).materials = s.materials) ∧
    (∀ (s : Configurator) (material j : Nat), j < s.materials.length →
      (s.addMaterial material).materials[j]? = s.materials[j]?) ∧
    (∀ (s : Configurator) (name : String) (d b : Option Nat),
      (s.addTexture name d b).materials = s.materials) := by
  refine ⟨?_, fun _ _ _ => rfl, ?_, fun _ _ _ _ => rfl⟩
  · intro s s' m i r h
    obtain ⟨materialData, meshData, -, -, -, -, hs⟩ :=
      Configurator.setMaterial_eq_some h
    rw [hs]
  · intro s material j hj
    exact List.getElem?_append_left hj

/-- Witness for claim C10: the `setMaterial(0, 0)` call from `exState` to
`exState1` leaves the materials registry unchanged. -/
theorem materials_frame_witness : exState1.materials = exState.materials :=
  materials_frame.1 exState exState1 0 0 0 rfl

/-- Claim C7: every state reachable from a freshly constructed
`Configurator` keeps the sentinel texture entry, named "None" with null
diffuse and bump handles, at index 0 of the texture registry. -/
theorem sentinel_at_zero (s : Configurator) (h : Reachable s) :
    s.textures[0]? = some sentinelTexture := by
  induction h with
  | init rmeshes rmats => rfl
  | step s0 s' op hr hstep ih =>
    cases op with
    | addMesh mesh mi =>
      obtain rfl : s0.addMesh mesh mi = s' := Option.some.inj hstep
      exact ih
    | addMaterial material =>
      obtain rfl : s0.addMaterial material = s' := Option.some.inj hstep
      exact ih
    | addTexture name d b =>
      obtain rfl : s0.addTexture name d b = s' := Option.some.inj hstep
      have h0 : 0 < s0.textures.length := lt_of_getElem?_some ih
      calc (s0.addTexture name d b).textures[0]?
          = s0.textures[0]? := List.getElem?_append_left h0
        _ = some sentinelTexture := ih
    | setMaterial m i =>
      obtain ⟨a, ha, hfa⟩ := Option.map_eq_some'.mp hstep
      obtain ⟨s1, r⟩ := a
      obtain ⟨materialData, meshData, -, -, -, -, hs⟩ :=
        Configurator.setMaterial_eq_some ha
      have h2 : s1 = s' := hfa
      subst h2
      rw [hs]
      exact ih
    | setTexture m t =>
      obtain ⟨textureData, meshData, rmesh, rmatRef, mdIndex, materialData,
        -, -, -, -, -, -, -, hs⟩ := Configurator.setTexture_eq_some hstep
      rw [hs]
      exact ih

/-- Witness for claim C7 at the freshly constructed configurator. -/
theorem sentinel_at_zero_witness :
    (initState [] []).textures[0]? = some sentinelTexture :=
  sentinel_at_zero (initState [] []) (Reachable.init [] [])

/-- Claim C4: for a registered mesh `m` with an attached renderable material
and a live material reference, and an in-bounds texture index `t`,
`setTexture(m, t)` writes the texture entry's diffuse and bump handles onto
the renderable material currently attached to the mesh's renderable mesh
handle, and stores `t` as the texture index on the material entry referenced
by the mesh entry; the mesh and texture registries and the mesh heap are
untouched. -/
theorem setTexture_spec (s : Configurator) (m t : Nat)
    (textureData : TextureData) (meshData : MeshData) (rmesh : RMesh)
    (rmatRef mdIndex : Nat) (materialData : MaterialData)
    (hT : s.textures[t]? = some textureData)
    (hm : s.meshes[m]? = some meshData)
    (hR : s.rmeshes[meshData.mesh]? = some rmesh)
    (hRm : rmesh.material = some rmatRef)
    (hrr : rmatRef < s.rmats.length)
    (hmd : meshData.materialData = some mdIndex)
    (hMd : s.materials[mdIndex]? = some materialData) :
    ∃ s', Configurator.setTexture s m t = some s' ∧
      s'.rmats[rmatRef]? =
        some { diffuseTexture := textureData.diffuseTexture,
               bumpTexture := textureData.bumpTexture } ∧
      s'.materials[mdIndex]? = some { materialData with textureIndex := t } ∧
      s'.meshes = s.meshes ∧ s'.rmeshes = s.rmeshes ∧
      s'.textures = s.textures := by
  refine ⟨_, Configurator.setTexture_eq_some_of hT hm hR hRm hrr hmd hMd,
    ?_, ?_, rfl, rfl, rfl⟩
  · exact List.getElem?_set_self hrr
  · exact List.getElem?_set_self (lt_of_getElem?_some hMd)

/-- Witness for claim C4 at `exState1` (mesh 0 has renderable material 0
attached), texture 1 ("Stones"). -/
theorem setTexture_spec_witness :
    ∃ s', Configurator.setTexture exState1 0 1 = some s' ∧
      s'.rmats[0]? =
        some { diffuseTexture := some 10, bumpTexture := some 11 } ∧
      s'.materials[0]? = some { material := 0, textureIndex := 1 } ∧
      s'.meshes = exState1.meshes ∧ s'.rmeshes = exState1.rmeshes ∧
      s'.textures = exState1.textures :=
  setTexture_spec exState1 0 1
    { name := "Stones", diffuseTexture := some 10, bumpTexture := some 11 }
    { mesh := 0, materialData := some 0 } { material := some 0 } 0 0
    { material := 0, textureIndex := 0 } rfl rfl rfl rfl (by decide) rfl rfl

/-- Claim C1: after `setMaterial(m, i)` immediately followed by
`setTexture(m, t)`, a subsequent `setMaterial(m', i)` reassigning the same
material index `i` to any registered mesh `m'` (whose stored handle is a
live engine object) returns `t`: the mesh entry set by the first call
references material entry `i`, so the `setTexture` call stored `t` there,
and any mesh entry referencing that same material entry observes it. -/
theorem setMaterial_returns_updated_texture (s s1 s2 : Configurator)
    (m i t r m' : Nat) (meshData' : MeshData)
    (h1 : Configurator.setMaterial s m i = some (s1, r))
    (h2 : Configurator.setTexture s1 m t = some s2)
    (hm' : s2.meshes[m']? = some meshData')
    (hh : meshData'.mesh < s2.rmeshes.length) :
    ∃ s3, Configurator.setMaterial s2 m' i = some (s3, t) := by
  obtain ⟨materialData, meshData, hM, hm, hmesh, hr, hs1⟩ :=
    Configurator.setMaterial_eq_some h1
  obtain ⟨textureData, meshData2, rmesh2, rmatRef, mdIndex, materialData2,
    hT2, hm2, hR2, hRm2, hrr2, hmd2, hMd2, hs2⟩ :=
    Configurator.setTexture_eq_some h2
  have hmesh1 : s1.meshes[m]? =
      some { meshData with materialData := some i } := by
    rw [hs1]
    exact List.getElem?_set_self (lt_of_getElem?_some hm)
  have hmd2eq : meshData2 = { meshData with materialData := some i } :=
    (Option.some.inj (hmesh1.symm.trans hm2)).symm
  have hi_eq : mdIndex = i := by
    rw [hmd2eq] at hmd2
    exact (Option.some.inj hmd2).symm
  subst hi_eq
  have hX : s2.materials[mdIndex]? =
      some { materialData2 with textureIndex := t } := by
    rw [hs2]
    exact List.getElem?_set_self (lt_of_getElem?_some hMd2)
  exact ⟨_, Configurator.setMaterial_eq_some_of s2 hm' hX hh⟩

/-- Witness for claim C1 along the chain
`exState` → `setMaterial(0, 0)` → `setTexture(0, 1)` → `setMaterial(1, 0)`. -/
theorem setMaterial_returns_updated_texture_witness :
    ∃ s3, Configurator.setMaterial exState2 1 0 = some (s3, 1) :=
  setMaterial_returns_updated_texture exState exState1 exState2 0 0 1 0 1
    { mesh := 1, materialData := some 1 } rfl rfl rfl (by decide)

/-- One successful call keeps the ghost record in step with the state: per
registered mesh, the material index of the last assigning call, plus the
count of registered materials. -/
theorem run1_ghost (s s' : Configurator) (op : Op)
    (g : List (Option Nat) × Nat) (h : run1 s op = some s')
    (hg1 : s.meshes.map MeshData.materialData = g.1)
    (hg2 : s.materials.length = g.2) :
    s'.meshes.map MeshData.materialData = (ghost1 g op).1 ∧
    s'.materials.length = (ghost1 g op).2 := by
  cases op with
  | addMesh mesh mi =>
    obtain rfl : s.addMesh mesh mi = s' := Option.some.inj h
    refine ⟨?_, hg2⟩
    simp only [ghost1, Configurator.addMesh, List.map_append, List.map_cons,
      List.map_nil, hg1, hg2]
  | addMaterial material =>
    obtain rfl : s.addMaterial material = s' := Option.some.inj h
    refine ⟨hg1, ?_⟩
    simp only [ghost1, Configurator.addMaterial, Configurator.addMaterialFull,
      List.length_append, List.length_cons, List.length_nil, hg2]
  | addTexture name d b =>
    obtain rfl : s.addTexture name d b = s' := Option.some.inj h
    exact ⟨hg1, hg2⟩
  | setMaterial m i =>
    obtain ⟨a, ha, hfa⟩ := Option.map_eq_some'.mp h
    obtain ⟨s1, r⟩ := a
    obtain ⟨materialData, meshData, hM, hm, hmesh, hr, hs1⟩ :=
      Configurator.setMaterial_eq_some ha
    have h2 : s1 = s' := hfa
    subst h2
    subst hs1
    refine ⟨?_, hg2⟩
    simp only [ghost1, List.map_set, hg1]
  | setTexture m t =>
    obtain ⟨textureData, meshData, rmesh, rmatRef, mdIndex, materialData,
      -, -, -, -, -, -, -, hs⟩ := Configurator.setTexture_eq_some h
    subst hs
    refine ⟨hg1, ?_⟩
    simpa using hg2

/-- A successful trace keeps the ghost record in step with the state. -/
theorem run_ghost (ops : List Op) (s s' : Configurator)
    (g : List (Option Nat) × Nat) (h : run s ops = some s')
    (hg1 : s.meshes.map MeshData.materialData = g.1)
    (hg2 : s.materials.length = g.2) :
    s'.meshes.map MeshData.materialData = (ghostRun g ops).1 ∧
    s'.materials.length = (ghostRun g ops).2 := by
  induction ops generalizing s g with
  | nil =>
    obtain rfl : s = s' := Option.some.inj h
    exact ⟨hg1, hg2⟩
  | cons op ops ih =>
    obtain ⟨s1, hstep, hrest⟩ := Option.bind_eq_some.mp h
    obtain ⟨k1, k2⟩ := run1_ghost s s1 op g hstep hg1 hg2
    exact ih s1 (ghost1 g op) hrest k1 k2

/-- Claim C2: over any successful call trace from a fresh configurator, for
meshes `a` and `b` whose last assigning call (`setMaterial`, or `addMesh`
with an in-bounds material index) used indices `ia` and `ib`,
`haveSameMaterial(a, b)` returns `true` iff `ia = ib` — the two mesh
entries' material references are identical exactly when the indices agree. -/
theorem haveSameMaterial_iff_last_assignment
    (rmeshes : List RMesh) (rmats : List RMat) (ops : List Op)
    (s : Configurator) (a b ia ib : Nat)
    (h : run (initState rmeshes rmats) ops = some s)
    (ha : (ghostRun ([], 0) ops).1[a]? = some (some ia))
    (hb : (ghostRun ([], 0) ops).1[b]? = some (some ib)) :
    (Configurator.haveSameMaterial s a b = some true ↔ ia = ib) := by
  obtain ⟨hmap, -⟩ := run_ghost ops (initState rmeshes rmats) s ([], 0) h rfl rfl
  rw [← hmap] at ha hb
  rw [List.getElem?_map] at ha hb
  obtain ⟨mda, hma, hda⟩ := Option.map_eq_some'.mp ha
  obtain ⟨mdb, hmb, hdb⟩ := Option.map_eq_some'.mp hb
  unfold Configurator.haveSameMaterial
  rw [hma, hmb]
  show some (decide (mda.materialData = mdb.materialData)) = some true ↔ ia = ib
  simp only [hda, hdb]
  simp

/-- A concrete four-call trace: two materials, then two meshes both
registered with material index 0. -/
def exOps : List Op :=
  [Op.addMaterial 5, Op.addMaterial 6, Op.addMesh 0 (some 0),
   Op.addMesh 1 (some 0)]

/-- The state `exOps` reaches from a fresh configurator with two renderable
meshes. -/
def exTraceState : Configurator :=
  (run (initState [{ material := none }, { material := none }] []) exOps).getD
    (initState [] [])

/-- Witness for claim C2 on the trace `exOps`: both meshes were last
assigned material index 0, and `haveSameMaterial(0, 1)` is `true`. -/
theorem haveSameMaterial_iff_last_assignment_witness :
    (Configurator.haveSameMaterial exTraceState 0 1 = some true ↔
      (0 : Nat) = 0) :=
  haveSameMaterial_iff_last_assignment
    [{ material := none }, { material := none }] [] exOps exTraceState
    0 1 0 0 rfl rfl rfl
